import Mathlib

/-!
Verification of the DFT repository: a shallow embedding of `src/imply.py`
(`imply_and_check`, frontier and X-path reports) and `src/collapser.py`
(`collapse_fault` and the non-dominating report pipeline), together with
theorems settling the specification claims.

The `cframe` support module (the Roth five-valued algebra, the circuit graph,
`Fault` and `FaultClass`) is not part of the two source files; those pieces are
modelled from the specification (sections 3, 4.1 and 8) and are marked as such.
Everything else is a direct transcription of the Python source, with mutation
of gate values represented by threading a state `Values : String → Roth`.
-/

namespace DFT

/-- Modelled from the spec: the five-valued domain V = {Zero, One, X, D, D̄}
of `cframe.Roth` (spec section 3); `Db` stands for D̄. -/
inductive Roth where
  | Zero
  | One
  | X
  | D
  | Db
deriving DecidableEq, Repr

/-- Gate types of the circuit graph (spec section 3). -/
inductive GType where
  | INPUT
  | AND
  | NAND
  | OR
  | NOR
  | NOT
  | BUFF
  | XOR
  | XNOR
deriving DecidableEq, Repr

/-- The `direction` argument of `imply_and_check`. -/
inductive Direction where
  | BOTH
  | FORWARD
  | BACKWARD
deriving DecidableEq, Repr

/-- Modelled from the spec: a gate of the circuit graph (`cframe` gate object,
spec section 3): name, type, ordered fan-in names, fan-out names. The mutable
current value lives in a separate state `Values`. -/
structure Gate where
  name : String
  gatetype : GType
  fanin : List String
  fanout : List String

/-- Modelled from the spec: the circuit — a name-keyed gate map kept in
iteration order, as the Python code iterates `circuit.gatemap.items()`. -/
structure Circuit where
  gates : List (String × Gate)

/-- Lookup in the gate map (`circuit.gatemap[name]`). -/
def Circuit.gatemap (c : Circuit) (n : String) : Gate :=
  (c.gates.lookup n).getD ⟨"", GType.INPUT, [], []⟩

/-- Modelled from the spec: a stuck-at fault `(polarity, stem, branch?)`
(spec section 3, `cframe.Fault`). -/
structure Fault where
  value : Roth
  stem : String
  branch : Option String := none
deriving DecidableEq, Repr

/-- Modelled from the spec: a fault is a branch fault iff it carries a branch
name (`Fault.is_branch`). -/
def Fault.is_branch (f : Fault) : Bool := f.branch.isSome

/-- The mutable gate-value store (`gate.value` attributes). -/
abbrev Values := String → Roth

/-- Assignment `gate_inst.value = v` as a functional update. -/
def upd (σ : Values) (n : String) (v : Roth) : Values :=
  fun m => if m = n then v else σ m

/-- Modelled from the spec: `cframe.Roth.invert`, swapping 0↔1 and D↔D̄
(spec section 3). -/
def Roth.invert : Roth → Roth
  | .Zero => .One
  | .One => .Zero
  | .X => .X
  | .D => .Db
  | .Db => .D

/-- Modelled from the spec: the good-circuit component of a Roth value
(D = good 1, D̄ = good 0, X = unknown; spec section 4.1). -/
def Roth.goodComp : Roth → Option Bool
  | .Zero => some false
  | .One => some true
  | .X => none
  | .D => some true
  | .Db => some false

/-- Modelled from the spec: the faulty-circuit component of a Roth value. -/
def Roth.badComp : Roth → Option Bool
  | .Zero => some false
  | .One => some true
  | .X => none
  | .D => some false
  | .Db => some true

/-- Modelled from the spec: three-valued (Kleene) evaluation of one component
for the operator kinds "AND", "OR", "XOR" accepted by `cframe.Roth.operate`. -/
def kleene2 (kind : String) (a b : Option Bool) : Option Bool :=
  if kind = "AND" then
    match a, b with
    | some false, _ => some false
    | _, some false => some false
    | some true, some true => some true
    | _, _ => none
  else if kind = "OR" then
    match a, b with
    | some true, _ => some true
    | _, some true => some true
    | some false, some false => some false
    | _, _ => none
  else
    match a, b with
    | some x, some y => some (xor x y)
    | _, _ => none

/-- Modelled from the spec: re-encoding of a component pair as a Roth value.
An unknown good component gives X; a definite good component with an unknown
faulty component collapses to the plain good value — this is forced by the
spec's section 8 laws (AND of D̄ with X is Zero, OR of D with X is One). -/
def Roth.ofComps : Option Bool → Option Bool → Roth
  | none, _ => .X
  | some g, none => if g then .One else .Zero
  | some g, some b =>
      if g = b then (if g then .One else .Zero) else (if g then .D else .Db)

/-- Modelled from the spec: the binary operator underlying
`cframe.Roth.operate`, computed component-wise (spec section 4.1). -/
def Roth.op2 (kind : String) (a b : Roth) : Roth :=
  Roth.ofComps (kleene2 kind a.goodComp b.goodComp) (kleene2 kind a.badComp b.badComp)

/-- Modelled from the spec: `cframe.Roth.operate(kind, values)`, the n-ary
reduction of the commutative/associative binary operator (spec section 4.1). -/
def Roth.operate (kind : String) (vals : List Roth) : Roth :=
  match vals with
  | [] => Roth.X
  | v :: rest => rest.foldl (fun a b => Roth.op2 kind a b) v

/-! Embedding of `imply_and_check` (src/imply.py, lines 69–351). -/

/-- Scan of the active fault list (imply.py lines 86–89): the loop overwrites
`fault_value` on every match, so the last matching fault wins. -/
def faultValue (faults : List Fault) (location : String) : Roth :=
  faults.foldl (fun acc f => if f.stem = location then f.value else acc) Roth.X

/-- The fault-absorption chain of imply.py lines 91–111: combines the scanned
fault value with the incoming value; `none` is the `return False` conflict,
and when no branch matches, `new_output` keeps its initial value X. -/
def effectiveValue (fv v : Roth) : Option Roth :=
  if fv = Roth.Zero ∧ v = Roth.One then some Roth.D
  else if fv = Roth.Zero ∧ v = Roth.Zero then some Roth.Zero
  else if fv = Roth.Zero ∧ v = Roth.D then some Roth.D
  else if fv = Roth.Zero ∧ v = Roth.Db then none
  else if fv = Roth.One ∧ v = Roth.One then some Roth.One
  else if fv = Roth.One ∧ v = Roth.Zero then some Roth.Db
  else if fv = Roth.One ∧ v = Roth.D then none
  else if fv = Roth.One ∧ v = Roth.Db then some Roth.Db
  else if fv = Roth.X then some v
  else some Roth.X

/-- Occurrence count of a value among fan-in values (the `inputs` bucket
dictionary of imply.py lines 123–128). -/
def countVal (vals : List Roth) (r : Roth) : Nat :=
  (vals.filter (fun v => decide (v = r))).length

/-- Python-dict insertion into `assign_location_values`: an existing key is
overwritten in place, a new key is appended. -/
def insertAssign : List (String × Roth) → String → Roth → List (String × Roth)
  | [], n, v => [(n, v)]
  | (m, w) :: rest, n, v =>
      if m = n then (m, v) :: rest else (m, w) :: insertAssign rest n v

/-- Insert the same value for every name in order (the
`for X_input_name in X_inputs_names` assignment loops). -/
def buildAssign (names : List String) (v : Roth) : List (String × Roth) :=
  names.foldl (fun acc n => insertAssign acc n v) []

/-- Backward justification of imply.py lines 122–250: given the gate type, the
gate's stored value, its fan-in names and the current state, produce the
`assign_location_values` dictionary, or `none` for the `return False` conflicts
of the all-inputs-known checks. The XNOR case keeps the source's exact
`elif` chaining, where `elif X_number == 1 and (not one_number_is_even)` at
line 243 sits on the outer chain rather than inside the output-1 branch. -/
def backwardAssigns (gt : GType) (gval : Roth) (faninNames : List String)
    (σ : Values) : Option (List (String × Roth)) :=
  let vals := faninNames.map σ
  let xNames := faninNames.filter (fun n => decide (σ n = Roth.X))
  let x0 := xNames.headD ""
  match gt with
  | .INPUT => some []
  | .AND =>
    if xNames.length = 0 then
      (let output := Roth.operate "AND" vals
       if output ≠ gval ∧ ¬((gval = Roth.D ∧ output = Roth.One) ∨
           (gval = Roth.Db ∧ output = Roth.Zero)) then none else some [])
    else if (gval = Roth.One ∨ gval = Roth.D) ∧
        vals.length - countVal vals Roth.One = countVal vals Roth.X then
      some (buildAssign xNames Roth.One)
    else if (gval = Roth.Zero ∨ gval = Roth.Db) ∧ xNames.length = 1 ∧
        countVal vals Roth.Zero = 0 ∧
        (countVal vals Roth.D = 0 ∨ countVal vals Roth.Db = 0) then
      some (insertAssign [] x0 Roth.Zero)
    else some []
  | .NAND =>
    if xNames.length = 0 then
      (let output := (Roth.operate "AND" vals).invert
       if output ≠ gval ∧ ¬((gval = Roth.D ∧ output = Roth.One) ∨
           (gval = Roth.Db ∧ output = Roth.Zero)) then none else some [])
    else if (gval = Roth.Zero ∨ gval = Roth.Db) ∧
        vals.length - countVal vals Roth.One = countVal vals Roth.X then
      some (buildAssign xNames Roth.One)
    else if (gval = Roth.One ∨ gval = Roth.D) ∧ xNames.length = 1 ∧
        countVal vals Roth.Zero = 0 ∧
        (countVal vals Roth.D = 0 ∨ countVal vals Roth.Db = 0) then
      some (insertAssign [] x0 Roth.Zero)
    else some []
  | .OR =>
    if xNames.length = 0 then
      (let output := Roth.operate "OR" vals
       if output ≠ gval ∧ ¬((gval = Roth.D ∧ output = Roth.One) ∨
           (gval = Roth.Db ∧ output = Roth.Zero)) then none else some [])
    else if (gval = Roth.Zero ∨ gval = Roth.Db) ∧
        vals.length - countVal vals Roth.Zero = countVal vals Roth.X then
      some (buildAssign xNames Roth.Zero)
    else if (gval = Roth.One ∨ gval = Roth.D) ∧ xNames.length = 1 ∧
        countVal vals Roth.One = 0 ∧
        (countVal vals Roth.D = 0 ∨ countVal vals Roth.Db = 0) then
      some (insertAssign [] x0 Roth.One)
    else some []
  | .NOR =>
    if xNames.length = 0 then
      (let output := (Roth.operate "OR" vals).invert
       if output ≠ gval ∧ ¬((gval = Roth.D ∧ output = Roth.One) ∨
           (gval = Roth.Db ∧ output = Roth.Zero)) then none else some [])
    else if (gval = Roth.One ∨ gval = Roth.D) ∧
        vals.length - countVal vals Roth.Zero = countVal vals Roth.X then
      some (buildAssign xNames Roth.Zero)
    else if (gval = Roth.Zero ∨ gval = Roth.Db) ∧ xNames.length = 1 ∧
        countVal vals Roth.One = 0 ∧
        (countVal vals Roth.D = 0 ∨ countVal vals Roth.Db = 0) then
      some (insertAssign [] x0 Roth.One)
    else some []
  | .BUFF =>
    if countVal vals Roth.X = 1 then
      some (insertAssign [] (faninNames.headD "") gval)
    else if σ (faninNames.headD "") ≠ gval then none
    else some []
  | .NOT =>
    if countVal vals Roth.X = 1 then
      some (insertAssign [] (faninNames.headD "") gval.invert)
    else if (σ (faninNames.headD "")).invert ≠ gval then none
    else some []
  | .XOR =>
    if xNames.length = 0 then
      (let output := Roth.operate "XOR" vals
       if output ≠ gval ∧ ¬((gval = Roth.D ∧ output = Roth.One) ∨
           (gval = Roth.Db ∧ output = Roth.Zero)) then none else some [])
    else if (gval = Roth.One ∨ gval = Roth.D) ∧
        countVal vals Roth.D = 0 ∧ countVal vals Roth.Db = 0 then
      (if countVal vals Roth.X = 1 ∧ countVal vals Roth.One % 2 = 0 then
        some (insertAssign [] x0 Roth.One)
      else if countVal vals Roth.X = 1 ∧ ¬(countVal vals Roth.One % 2 = 0) then
        some (insertAssign [] x0 Roth.Zero)
      else some [])
    else if (gval = Roth.Zero ∨ gval = Roth.Db) ∧
        countVal vals Roth.D = 0 ∧ countVal vals Roth.Db = 0 then
      (if countVal vals Roth.X = 1 ∧ countVal vals Roth.One % 2 = 0 then
        some (insertAssign [] x0 Roth.Zero)
      else if countVal vals Roth.X = 1 ∧ ¬(countVal vals Roth.One % 2 = 0) then
        some (insertAssign [] x0 Roth.One)
      else some [])
    else some []
  | .XNOR =>
    if xNames.length = 0 then
      (let output := (Roth.operate "XOR" vals).invert
       if output ≠ gval ∧ ¬((gval = Roth.D ∧ output = Roth.One) ∨
           (gval = Roth.Db ∧ output = Roth.Zero)) then none else some [])
    else if (gval = Roth.One ∨ gval = Roth.D) ∧
        countVal vals Roth.D = 0 ∧ countVal vals Roth.Db = 0 then
      (if countVal vals Roth.X = 1 ∧ countVal vals Roth.One % 2 = 0 then
        some (insertAssign [] x0 Roth.Zero)
      else some [])
    else if countVal vals Roth.X = 1 ∧ ¬(countVal vals Roth.One % 2 = 0) then
      some (insertAssign [] x0 Roth.One)
    else if (gval = Roth.Zero ∨ gval = Roth.Db) ∧
        countVal vals Roth.D = 0 ∧ countVal vals Roth.Db = 0 then
      (if countVal vals Roth.X = 1 ∧ countVal vals Roth.One % 2 = 0 then
        some (insertAssign [] x0 Roth.One)
      else if countVal vals Roth.X = 1 ∧ ¬(countVal vals Roth.One % 2 = 0) then
        some (insertAssign [] x0 Roth.Zero)
      else some [])
    else some []

/-- The gate-equation switch used by the forward evaluations of imply.py
(lines 264–280 and 312–328). NOT and BUFF use the local variable `value`
(passed here as `v`), not the stored fan-in value; for an unmatched type
(INPUT) the initial `output = Roth.X` survives. -/
def gateEvalSwitch (gt : GType) (vals : List Roth) (v : Roth) : Roth :=
  match gt with
  | .AND => Roth.operate "AND" vals
  | .NAND => (Roth.operate "AND" vals).invert
  | .OR => Roth.operate "OR" vals
  | .NOR => (Roth.operate "OR" vals).invert
  | .NOT => v.invert
  | .BUFF => v
  | .XOR => Roth.operate "XOR" vals
  | .XNOR => (Roth.operate "XOR" vals).invert
  | .INPUT => Roth.X

/-- A step of the engine: `none` is fuel exhaustion, `some (false, σ)` is a
conflict (`return False`, state kept as mutated so far), `some (true, σ)` is a
valid implication. -/
abbrev StepResult := Option (Bool × Values)

/-- The recursive entry point's type, abstracted so the phases of the engine
can be stated and proved about separately. -/
abbrev RecFun := String → Roth → Direction → Values → StepResult

/-- Sequencing with the Python early-return-on-False semantics. -/
def andThen (f g : Values → StepResult) (σ : Values) : StepResult :=
  match f σ with
  | none => none
  | some (false, σ1) => some (false, σ1)
  | some (true, σ1) => g σ1

/-- Run a loop body over a list, aborting on the first conflict. -/
def runList (f : α → Values → StepResult) : List α → Values → StepResult
  | [], σ => some (true, σ)
  | a :: rest, σ => andThen (f a) (runList f rest) σ

/-- The other-fan-out pass after one backward assignment (imply.py lines
256–282): siblings of the freshly assigned fan-in `loc` other than the current
`location` are re-implied — with the assigned value when already definite,
otherwise with a fresh forward evaluation. -/
def siblingPass (self : RecFun) (c : Circuit) (location loc : String)
    (v : Roth) : Values → StepResult :=
  runList (fun foName σ =>
    if foName = location then some (true, σ)
    else if σ foName ≠ Roth.X then self foName v Direction.BACKWARD σ
    else
      self foName
        (gateEvalSwitch (c.gatemap foName).gatetype
          ((c.gatemap foName).fanin.map σ) v)
        Direction.BOTH σ)
    (c.gatemap loc).fanout

/-- The backward loop of imply.py lines 253–262: each forced assignment is
applied with direction BACKWARD and followed by the sibling pass. -/
def backwardPhase (self : RecFun) (c : Circuit) (location : String) :
    List (String × Roth) → Values → StepResult :=
  runList (fun lv =>
    andThen (fun σ => self lv.1 lv.2 Direction.BACKWARD σ)
      (siblingPass self c location lv.1 lv.2))

/-- The per-gate inner scan of the D-frontier enumeration (imply.py lines
289–295). The append sits inside the fan-in loop, so a gate is appended once
for every fan-in from the first D/D̄ fan-in onward. -/
def dFrontierScanGate (σ : Values) (gname : String) (g : Gate) : List String :=
  (g.fanin.foldl (fun acc fi =>
      let ec := if σ fi = Roth.D ∨ σ fi = Roth.Db then acc.1 + 1 else acc.1
      (ec, if 0 < ec ∧ σ gname = Roth.X then acc.2 ++ [gname] else acc.2))
    ((0 : Nat), ([] : List String))).2

/-- The `D_frontiers` list built by imply.py lines 288–295 (duplicates and
all). -/
def dFrontiers (c : Circuit) (σ : Values) : List String :=
  c.gates.foldl (fun acc p => acc ++ dFrontierScanGate σ p.1 p.2) []

/-- The D-frontier scan of lines 288–295 rebinds the local variable `value`
to each examined fan-in's value; this returns what `value` holds after the
scan (the last fan-in of the last gate that has a fan-in), or `none` when no
gate has a fan-in and `value` is left untouched. -/
def dScanLastValue (c : Circuit) (σ : Values) : Option Roth :=
  c.gates.foldl (fun acc p => p.2.fanin.foldl (fun _ fi => some (σ fi)) acc) none

/-- The unique-D-drive forcing of imply.py lines 336–347. The source's OR
branch tests `gatetype == "OR" or gatetype == "NNOR"`; no gate type is named
NNOR, so NOR gates fall through and are never forced. -/
def uniqueDAssigns (gt : GType) (faninNames : List String) (σ : Values) :
    List (String × Roth) :=
  let vals := faninNames.map σ
  let xNames := faninNames.filter (fun n => decide (σ n = Roth.X))
  if gt = GType.AND ∨ gt = GType.NAND then
    if (countVal vals Roth.D = 0 ∨ countVal vals Roth.Db = 0) ∧
        (vals.length - countVal vals Roth.D = countVal vals Roth.X ∨
         vals.length - countVal vals Roth.Db = countVal vals Roth.X) then
      buildAssign xNames Roth.One
    else []
  else if gt = GType.OR then
    if (countVal vals Roth.D = 0 ∨ countVal vals Roth.Db = 0) ∧
        (vals.length - countVal vals Roth.D = countVal vals Roth.X ∨
         vals.length - countVal vals Roth.Db = countVal vals Roth.X) then
      buildAssign xNames Roth.Zero
    else []
  else if gt = GType.XOR ∨ gt = GType.XNOR then
    buildAssign xNames Roth.Zero
  else []

/-- The forward loop of imply.py lines 300–350 over the fan-outs of the
current gate. `vVar` threads the Python local `value`, which the unique-D
assignment loop of lines 348–350 rebinds for later iterations. The
X-but-definite case re-implies `gate_inst.value` — the just-assigned gate's
stored value, read from the current state — with direction BACKWARD. -/
def forwardLoop (self : RecFun) (c : Circuit) (location : String)
    (isOnly : Bool) (d0 : String) : List String → Roth → Values → StepResult
  | [], _, σ => some (true, σ)
  | fo :: rest, vVar, σ =>
    let foG := c.gatemap fo
    let out := gateEvalSwitch foG.gatetype (foG.fanin.map σ) vVar
    if out ≠ Roth.X then
      andThen (self fo out Direction.BOTH)
        (forwardLoop self c location isOnly d0 rest vVar) σ
    else if σ fo ≠ Roth.X then
      andThen (self fo (σ location) Direction.BACKWARD)
        (forwardLoop self c location isOnly d0 rest vVar) σ
    else if isOnly = true ∧ fo = d0 then
      let assigns := uniqueDAssigns foG.gatetype foG.fanin σ
      let vVar2 := match assigns.getLast? with
        | some p => p.2
        | none => vVar
      andThen (runList (fun lv σ2 => self lv.1 lv.2 Direction.FORWARD σ2) assigns)
        (forwardLoop self c location isOnly d0 rest vVar2) σ
    else forwardLoop self c location isOnly d0 rest vVar σ

/-- The tail of `imply_and_check` once backward justification has succeeded
(imply.py lines 284–351): the unique-D-frontier determination over the current
state, the rebinding of the local `value` variable by the loops of lines 253
and 291, and the forward loop when the direction allows it. -/
def implyFinish (c : Circuit) (dd : Bool) (self : RecFun) (location : String)
    (value : Roth) (dir : Direction) (asg : List (String × Roth))
    (σ2 : Values) : StepResult :=
  let v1 := match asg.getLast? with
    | some p => p.2
    | none => value
  let dfs := if dd then dFrontiers c σ2 else []
  let v2 := if dd then (dScanLastValue c σ2).getD v1 else v1
  let isOnly : Bool := dd && decide (dfs.length = 1) &&
    decide (location ∈ (c.gatemap (dfs.headD "")).fanin)
  if dir ≠ Direction.BACKWARD then
    forwardLoop self c location isOnly (dfs.headD "")
      (c.gatemap location).fanout v2 σ2
  else some (true, σ2)

/-- Everything in `imply_and_check` after the assignment of the effective
value: backward justification (skipped for INPUT gates), then the backward
loop, then `implyFinish` (imply.py lines 120–351). `nv` is the stored
effective value (`gate_inst.value` at this point), `value` the original
parameter. -/
def implyRest (c : Circuit) (dd : Bool) (self : RecFun) (location : String)
    (value : Roth) (dir : Direction) (nv : Roth) (σ1 : Values) : StepResult :=
  match (if (c.gatemap location).gatetype = GType.INPUT then some []
         else backwardAssigns (c.gatemap location).gatetype nv
           (c.gatemap location).fanin σ1) with
  | none => some (false, σ1)
  | some asg =>
    match backwardPhase self c location asg σ1 with
    | none => none
    | some (false, σ2) => some (false, σ2)
    | some (true, σ2) => implyFinish c dd self location value dir asg σ2

/-- One unfolding of `imply_and_check` given the recursive entry `self`:
fault absorption (lines 86–111), assignment and conflict check (lines
113–117), then `implyRest`. -/
def implyStep (c : Circuit) (faults : List Fault) (dd : Bool) (self : RecFun)
    (location : String) (value : Roth) (dir : Direction) (σ : Values) :
    StepResult :=
  match effectiveValue (faultValue faults location) value with
  | none => some (false, σ)
  | some nv =>
    if σ location = Roth.X then
      implyRest c dd self location value dir nv (upd σ location nv)
    else if σ location = nv then
      implyRest c dd self location value dir nv σ
    else some (false, σ)

/-- The fuel-indexed embedding of `imply_and_check(circuit, faults, location,
value, D_drive, direction)`; `none` means the fuel ran out before the Python
recursion finished. -/
def implyAndCheck (c : Circuit) (faults : List Fault) (dd : Bool) :
    Nat → RecFun
  | 0 => fun _ _ _ _ => none
  | fuel + 1 => implyStep c faults dd (implyAndCheck c faults dd fuel)

/-! Embedding of the X-path report (src/imply.py, lines 401–437). -/

/-- The recursive X-path walk `x_path_check_utils` (imply.py lines 424–437),
with fuel for the recursion over the acyclic fan-out graph. -/
def xPathCheckUtils (c : Circuit) (σ : Values) : Nat → String → Bool
  | 0, _ => false
  | fuel + 1, gname =>
    if (c.gatemap gname).fanout = [] then true
    else (c.gatemap gname).fanout.any (fun fo =>
      let xCount := ((c.gatemap fo).fanin.filter
        (fun fi => decide (fi ≠ gname) && decide (σ fi = Roth.X))).length
      (decide (0 < xCount) || decide ((c.gatemap fo).gatetype = GType.NOT)) &&
        xPathCheckUtils c σ fuel fo)

/-- The D-frontier test of `x_path_check` (imply.py lines 412–417): some fan-in
carries D or D̄ and the gate's own value is X. Unlike the unique-D-drive scan,
here the check sits after the fan-in loop, so each gate is tested once. -/
def isDFrontierB (σ : Values) (p : String × Gate) : Bool :=
  (p.2.fanin.any (fun fi => decide (σ fi = Roth.D) || decide (σ fi = Roth.Db))) &&
    decide (σ p.1 = Roth.X)

/-- The body of `x_path_check` after the header write (imply.py lines
411–422): scan the gate map in order; on the first D-frontier gate whose
X-path test succeeds, write its name and return — skipping the terminator —
otherwise finish with the `$` line and blank line. -/
def xPathScan (c : Circuit) (σ : Values) (fuel : Nat) :
    List (String × Gate) → String
  | [] => "$\n\n"
  | p :: rest =>
    if isDFrontierB σ p then
      (if xPathCheckUtils c σ fuel p.2.name then p.2.name ++ "\n"
       else xPathScan c σ fuel rest)
    else xPathScan c σ fuel rest

/-- The full text written by one `Xpath` command (imply.py lines 410–422). -/
def xPathOut (c : Circuit) (σ : Values) (fuel : Nat) : String :=
  "X-PATH\n" ++ xPathScan c σ fuel c.gates

/-! Embedding of the fault collapser (src/collapser.py). -/

/-- Modelled from the spec: a fault class (spec section 3, `cframe.FaultClass`)
with its ordered equivalent-fault list (head = representative) and dominated
child classes. -/
inductive FaultClass where
  | node (equivalent : List Fault) (dominated : List FaultClass)

/-- The equivalent-fault list of a class. -/
def FaultClass.equivalent : FaultClass → List Fault
  | .node eqv _ => eqv

/-- The dominated children of a class. -/
def FaultClass.dominated : FaultClass → List FaultClass
  | .node _ dom => dom

/-- The representative fault `fltclass.equivalent[0]`. -/
def FaultClass.rep : FaultClass → Fault
  | .node eqv _ => eqv.headD ⟨Roth.X, "", none⟩

/-- The net effect of one `collapse_fault` call on its surroundings: faults
appended to the owner's equivalent list, classes appended to the owner's
dominated list, classes appended to the top-level list, and the returned
`fin_list` of gate names. -/
structure CollapseResult where
  extraEquivs : List Fault
  doms : List FaultClass
  tops : List FaultClass
  fins : List String

/-- Concatenation of the effects of two successive loop iterations. -/
def CollapseResult.append (a b : CollapseResult) : CollapseResult :=
  ⟨a.extraEquivs ++ b.extraEquivs, a.doms ++ b.doms,
   a.tops ++ b.tops, a.fins ++ b.fins⟩

/-- The SA0/SA1 candidate faults built for a fan-in line (collapser.py lines
160–176): a stem fault when the fan-in drives exactly one fan-out, otherwise
the branch fault toward the current gate. The source finds the branch by
scanning `fi_gate_inst.fanout` for the entry equal to `gate_name`; under the
circuit invariant that fan-in/fan-out lists are mutually consistent that entry
is `gate_name` itself. -/
def faninFaults (c : Circuit) (gname fi : String) : Fault × Fault :=
  let fiInst := c.gatemap fi
  if fiInst.fanout.length = 1 then
    (⟨Roth.Zero, fiInst.name, none⟩, ⟨Roth.One, fiInst.name, none⟩)
  else
    (⟨Roth.Zero, fiInst.name, some gname⟩, ⟨Roth.One, fiInst.name, some gname⟩)

/-- The "equivalent" action (collapser.py `fltclass.add_equivalent(f)` followed
by recursion with the same owner): the fan-in fault and everything the
recursion adds land in the owner's own lists. -/
def equivStep (rec : Fault → Option CollapseResult) (f : Fault) :
    Option CollapseResult :=
  match rec f with
  | none => none
  | some r => some ⟨f :: r.extraEquivs, r.doms, r.tops, r.fins⟩

/-- The "dominated" action (collapser.py `fltclass.add_dominated(ficlass)`
followed by recursion with the fresh class as owner): the fan-in fault heads a
fresh class that absorbs the recursion's equivalents and children. -/
def domStep (rec : Fault → Option CollapseResult) (f : Fault) :
    Option CollapseResult :=
  match rec f with
  | none => none
  | some r => some ⟨[], [.node (f :: r.extraEquivs) r.doms], r.tops, r.fins⟩

/-- One iteration of the fan-in loop of `collapse_fault` (collapser.py lines
160–232), dispatching on the current gate's type and the output fault's
polarity. For XOR/XNOR with polarity One the source does nothing (its comment:
already added in the Roth.Zero case). -/
def faninStep (c : Circuit) (rec : Fault → Option CollapseResult)
    (gname : String) (gt : GType) (p : Roth) (fi : String) :
    Option CollapseResult :=
  let sa0 := (faninFaults c gname fi).1
  let sa1 := (faninFaults c gname fi).2
  let isBr := (c.gatemap fi).fanout.length ≠ 1
  if p = Roth.Zero then
    match gt with
    | .AND => equivStep rec sa0
    | .NAND => domStep rec sa1
    | .OR => domStep rec sa0
    | .NOR => equivStep rec sa1
    | .XOR => some ⟨[], [],
        (if isBr then [.node [sa0] [], .node [sa1] []] else []),
        [(c.gatemap fi).name]⟩
    | .XNOR => some ⟨[], [],
        (if isBr then [.node [sa0] [], .node [sa1] []] else []),
        [(c.gatemap fi).name]⟩
    | .NOT => equivStep rec sa1
    | .BUFF => equivStep rec sa0
    | .INPUT => some ⟨[], [], [], []⟩
  else if p = Roth.One then
    match gt with
    | .AND => domStep rec sa1
    | .NAND => equivStep rec sa0
    | .OR => equivStep rec sa1
    | .NOR => domStep rec sa0
    | .XOR => some ⟨[], [], [], []⟩
    | .XNOR => some ⟨[], [], [], []⟩
    | .NOT => equivStep rec sa0
    | .BUFF => equivStep rec sa1
    | .INPUT => some ⟨[], [], [], []⟩
  else some ⟨[], [], [], []⟩

/-- Sequential accumulation over the fan-in list, as the Python loop extends
the shared lists in order. -/
def collapseList (step : String → Option CollapseResult) :
    List String → Option CollapseResult
  | [] => some ⟨[], [], [], []⟩
  | fi :: rest =>
    match step fi with
    | none => none
    | some r1 =>
      match collapseList step rest with
      | none => none
      | some r2 => some (r1.append r2)

/-- The embedding of `collapse_fault(flt, fltclass, top_fcs, circ)`
(collapser.py lines 136–235), fuel-indexed for the recursion through the
acyclic circuit. A branch fault returns its stem and stops; a fault on an
INPUT gate returns nothing; otherwise the fan-in loop runs. -/
def collapseFault (c : Circuit) : Nat → Fault → Option CollapseResult
  | 0, _ => none
  | fuel + 1, flt =>
    if flt.is_branch then some ⟨[], [], [], [flt.stem]⟩
    else
      let gate := c.gatemap flt.stem
      if gate.gatetype = GType.INPUT then some ⟨[], [], [], []⟩
      else
        collapseList
          (faninStep c (collapseFault c fuel) flt.stem gate.gatetype flt.value)
          gate.fanin

/-- A top-level class as built by `collapse_circuit` (collapser.py lines
118–128): `FaultClass(f)` seeded with the representative, then mutated by
`collapse_fault`. -/
def collapseRoot (c : Circuit) (fuel : Nat) (f : Fault) : Option FaultClass :=
  (collapseFault c fuel f).map (fun r => .node (f :: r.extraEquivs) r.doms)

/-- The recursion of `find_no_dominant_faults` (collapser.py lines 71–80)
over a list of classes: a class with no dominated children is collected,
otherwise the walk descends into its children. -/
def noDominantListAux : List FaultClass → List FaultClass
  | [] => []
  | .node eqv dom :: ts =>
    (if dom.isEmpty then [.node eqv dom] else noDominantListAux dom) ++
      noDominantListAux ts

/-- The checkpoint condition of `find_no_dominant_faults_check_points`
(collapser.py lines 84–86): the representative is a branch fault, or its stem
gate is a primary INPUT. -/
def checkpointCond (c : Circuit) (t : FaultClass) : Bool :=
  if t.rep.is_branch then true
  else decide ((c.gatemap t.rep.stem).gatetype = GType.INPUT)

/-- The recursion of `find_no_dominant_faults_check_points` (collapser.py
lines 82–93): a childless class is collected only when the checkpoint
condition holds; every other class sends the walk into its children (for a
childless class that loop is empty). -/
def noDominantCheckListAux (c : Circuit) : List FaultClass → List FaultClass
  | [] => []
  | .node eqv dom :: ts =>
    (if dom.isEmpty ∧ checkpointCond c (.node eqv dom) then [.node eqv dom]
     else noDominantCheckListAux c dom) ++ noDominantCheckListAux c ts

/-- The `.analysis` report body (collapser.py lines 61–68): representatives of
normal-version classes for which no checkpoint-version class has an equal
representative. -/
def analysisFaults (nd cp : List FaultClass) : List Fault :=
  (nd.filter (fun n => ! cp.any (fun m => decide (m.rep = n.rep)))).map
    FaultClass.rep

/-! Definitions following the spec's words, for comparison with the source. -/

/-- The fan-in relation prescribed by the spec's section 4.2 table for the
non-XOR gate types: either the fan-in fault of the given polarity is
equivalent (owner unchanged) or it heads a fresh dominated class. -/
inductive FaninRel where
  | equivalent (p : Roth)
  | dominated (p : Roth)
deriving DecidableEq, Repr

/-- Follows the spec's words: the section 4.2 equivalence/dominance table,
keyed by gate type and output-fault polarity. -/
def specFaninRule : GType → Roth → Option FaninRel
  | .AND, .Zero => some (.equivalent .Zero)
  | .AND, .One => some (.dominated .One)
  | .NAND, .Zero => some (.dominated .One)
  | .NAND, .One => some (.equivalent .Zero)
  | .OR, .Zero => some (.dominated .Zero)
  | .OR, .One => some (.equivalent .One)
  | .NOR, .Zero => some (.equivalent .One)
  | .NOR, .One => some (.dominated .Zero)
  | .NOT, .Zero => some (.equivalent .One)
  | .NOT, .One => some (.equivalent .Zero)
  | .BUFF, .Zero => some (.equivalent .Zero)
  | .BUFF, .One => some (.equivalent .One)
  | _, _ => none

/-- The fan-in fault of the given polarity for a fan-in line. -/
def pickFault (c : Circuit) (gname fi : String) (q : Roth) : Fault :=
  if q = Roth.Zero then (faninFaults c gname fi).1 else (faninFaults c gname fi).2

/-- The generic fan-in action driven by a table entry: "equivalent" adds the
fault to the owner and recurses with the same owner, "dominated" opens a
fresh class and recurses with it as owner. -/
def applyRel (c : Circuit) (rec : Fault → Option CollapseResult)
    (gname fi : String) : FaninRel → Option CollapseResult
  | .equivalent q => equivStep rec (pickFault c gname fi q)
  | .dominated q => domStep rec (pickFault c gname fi q)

/-- Follows the spec's words (claim C4): the fan-out's gate equation evaluated
over the current stored values of its fan-ins — for NOT and BUFF this reads
the stored fan-in value instead of the engine's local `value` variable. -/
def gateEvalStored (gt : GType) (vals : List Roth) : Roth :=
  match gt with
  | .AND => Roth.operate "AND" vals
  | .NAND => (Roth.operate "AND" vals).invert
  | .OR => Roth.operate "OR" vals
  | .NOR => (Roth.operate "OR" vals).invert
  | .NOT => (vals.headD Roth.X).invert
  | .BUFF => vals.headD Roth.X
  | .XOR => Roth.operate "XOR" vals
  | .XNOR => (Roth.operate "XOR" vals).invert
  | .INPUT => Roth.X

/-- Follows the spec's words (claim C4): the forward loop as the claim
describes it — evaluation over stored fan-in values, and in the X-but-definite
case the fan-out's own stored value is re-implied with direction BACKWARD. -/
def forwardLoopClaim (self : RecFun) (c : Circuit) (location : String)
    (isOnly : Bool) (d0 : String) : List String → Values → StepResult
  | [], σ => some (true, σ)
  | fo :: rest, σ =>
    let foG := c.gatemap fo
    let out := gateEvalStored foG.gatetype (foG.fanin.map σ)
    if out ≠ Roth.X then
      andThen (self fo out Direction.BOTH)
        (forwardLoopClaim self c location isOnly d0 rest) σ
    else if σ fo ≠ Roth.X then
      andThen (self fo (σ fo) Direction.BACKWARD)
        (forwardLoopClaim self c location isOnly d0 rest) σ
    else if isOnly = true ∧ fo = d0 then
      andThen (runList (fun lv σ2 => self lv.1 lv.2 Direction.FORWARD σ2)
          (uniqueDAssigns foG.gatetype foG.fanin σ))
        (forwardLoopClaim self c location isOnly d0 rest) σ
    else forwardLoopClaim self c location isOnly d0 rest σ

/-- Follows the spec's words (claim C4): `implyRest` with the claim's version
of the forward loop; all other phases are shared with the source embedding. -/
def implyRestClaim (c : Circuit) (dd : Bool) (self : RecFun)
    (location : String) (dir : Direction) (nv : Roth) (σ1 : Values) :
    StepResult :=
  let g := c.gatemap location
  match (if g.gatetype = GType.INPUT then some []
         else backwardAssigns g.gatetype nv g.fanin σ1) with
  | none => some (false, σ1)
  | some asg =>
    match backwardPhase self c location asg σ1 with
    | none => none
    | some (false, σ2) => some (false, σ2)
    | some (true, σ2) =>
      let dfs := if dd then dFrontiers c σ2 else []
      let isOnly : Bool := dd && decide (dfs.length = 1) &&
        decide (location ∈ (c.gatemap (dfs.headD "")).fanin)
      if dir ≠ Direction.BACKWARD then
        forwardLoopClaim self c location isOnly (dfs.headD "") g.fanout σ2
      else some (true, σ2)

/-- Follows the spec's words (claim C4): one step of the engine with the
claim's forward loop. -/
def implyStepClaim (c : Circuit) (faults : List Fault) (dd : Bool)
    (self : RecFun) (location : String) (value : Roth) (dir : Direction)
    (σ : Values) : StepResult :=
  match effectiveValue (faultValue faults location) value with
  | none => some (false, σ)
  | some nv =>
    if σ location = Roth.X then
      implyRestClaim c dd self location dir nv (upd σ location nv)
    else if σ location = nv then
      implyRestClaim c dd self location dir nv σ
    else some (false, σ)

/-- Follows the spec's words (claim C4): the engine with the claim's forward
loop. -/
def implyAndCheckClaim (c : Circuit) (faults : List Fault) (dd : Bool) :
    Nat → RecFun
  | 0 => fun _ _ _ _ => none
  | fuel + 1 => implyStepClaim c faults dd (implyAndCheckClaim c faults dd fuel)

/-! Concrete circuits and states used by the claim instances. -/

/-- The all-X initial state. -/
def σX : Values := fun _ => Roth.X

/-- Two disconnected primary inputs. -/
def inputsC : Circuit :=
  ⟨[("A", ⟨"A", GType.INPUT, [], []⟩), ("B", ⟨"B", GType.INPUT, [], []⟩)]⟩

/-- The spec's single-NAND scenario: `G = NAND(A, B)`, output G. -/
def nandC : Circuit :=
  ⟨[("A", ⟨"A", GType.INPUT, [], ["G"]⟩),
    ("B", ⟨"B", GType.INPUT, [], ["G"]⟩),
    ("G", ⟨"G", GType.NAND, ["A", "B"], []⟩)]⟩

/-- A three-input AND fed by primary inputs, the fault site A listed first. -/
def andC : Circuit :=
  ⟨[("A", ⟨"A", GType.INPUT, [], ["F"]⟩),
    ("B", ⟨"B", GType.INPUT, [], ["F"]⟩),
    ("C", ⟨"C", GType.INPUT, [], ["F"]⟩),
    ("F", ⟨"F", GType.AND, ["A", "B", "C"], []⟩)]⟩

/-- A two-input XNOR fed by primary inputs. -/
def xnorC : Circuit :=
  ⟨[("A", ⟨"A", GType.INPUT, [], ["G"]⟩),
    ("B", ⟨"B", GType.INPUT, [], ["G"]⟩),
    ("G", ⟨"G", GType.XNOR, ["A", "B"], []⟩)]⟩

/-- A two-input XOR whose fan-in A is a branch (A also feeds H). -/
def xorC : Circuit :=
  ⟨[("A", ⟨"A", GType.INPUT, [], ["G", "H"]⟩),
    ("B", ⟨"B", GType.INPUT, [], ["G"]⟩),
    ("G", ⟨"G", GType.XOR, ["A", "B"], []⟩)]⟩

/-- An AND gate H = AND(G, K) below the implied input G. -/
def c4C : Circuit :=
  ⟨[("G", ⟨"G", GType.INPUT, [], ["H"]⟩),
    ("K", ⟨"K", GType.INPUT, [], ["H"]⟩),
    ("H", ⟨"H", GType.AND, ["G", "K"], []⟩)]⟩

/-! Helper lemmas about the fault-list scan. -/

theorem faultValue_foldl_nomatch (L : String) :
    ∀ (fs : List Fault) (acc : Roth), (∀ f ∈ fs, f.stem ≠ L) →
      fs.foldl (fun acc f => if f.stem = L then f.value else acc) acc = acc := by
  intro fs
  induction fs with
  | nil => intro acc _; rfl
  | cons f rest ih =>
    intro acc h
    have hf : f.stem ≠ L := h f (by simp)
    simp only [List.foldl_cons, if_neg hf]
    exact ih acc (fun g hg => h g (by simp [hg]))

theorem faultValue_foldl_allmatch (L : String) (v : Roth) :
    ∀ (fs : List Fault) (acc : Roth), (∃ f ∈ fs, f.stem = L) →
      (∀ f ∈ fs, f.stem = L → f.value = v) →
      fs.foldl (fun acc f => if f.stem = L then f.value else acc) acc = v := by
  intro fs
  induction fs with
  | nil => intro acc hex _; simp at hex
  | cons f rest ih =>
    intro acc hex hall
    by_cases hf : f.stem = L
    · simp only [List.foldl_cons, if_pos hf]
      by_cases hrest : ∃ g ∈ rest, g.stem = L
      · exact ih f.value hrest (fun g hg => hall g (by simp [hg]))
      · push_neg at hrest
        rw [faultValue_foldl_nomatch L rest f.value hrest]
        exact hall f (by simp) hf
    · simp only [List.foldl_cons, if_neg hf]
      have hex2 : ∃ g ∈ rest, g.stem = L := by
        obtain ⟨g, hg, hgl⟩ := hex
        rcases List.mem_cons.mp hg with h1 | h2
        · exact absurd (h1 ▸ hgl) hf
        · exact ⟨g, h2, hgl⟩
      exact ih acc hex2 (fun g hg => hall g (by simp [hg]))

theorem faultValue_of_match (faults : List Fault) (L : String) (v : Roth)
    (hex : ∃ f ∈ faults, f.stem = L)
    (hall : ∀ f ∈ faults, f.stem = L → f.value = v) :
    faultValue faults L = v :=
  faultValue_foldl_allmatch L v faults Roth.X hex hall

theorem faultValue_of_nomatch (faults : List Fault) (L : String)
    (h : ∀ f ∈ faults, f.stem ≠ L) : faultValue faults L = Roth.X :=
  faultValue_foldl_nomatch L faults Roth.X h

/-! State preservation: a call of the engine never changes an already-definite
gate value. -/

/-- A state transformer preserves every already-definite gate value. -/
def Pres (f : Values → StepResult) : Prop :=
  ∀ σ b σ', f σ = some (b, σ') → ∀ g, σ g ≠ Roth.X → σ' g = σ g

theorem andThen_pres {f g : Values → StepResult} (hf : Pres f) (hg : Pres g) :
    Pres (andThen f g) := by
  intro σ b σ' h x hx
  unfold andThen at h
  split at h
  · exact Option.noConfusion h
  · next σ1 heq =>
    simp only [Option.some.injEq, Prod.mk.injEq] at h
    rw [← h.2]
    exact hf _ _ _ heq x hx
  · next σ1 heq =>
    have h1 := hf _ _ _ heq x hx
    have h2 := hg _ _ _ h x (by rw [h1]; exact hx)
    rw [h2, h1]

theorem runList_pres {f : α → Values → StepResult} (hf : ∀ a, Pres (f a)) :
    ∀ l, Pres (runList f l) := by
  intro l
  induction l with
  | nil =>
    intro σ b σ' h x hx
    simp only [runList, Option.some.injEq, Prod.mk.injEq] at h
    rw [← h.2]
  | cons a rest ih => exact andThen_pres (hf a) ih

theorem siblingPass_pres (self : RecFun) (hs : ∀ l v d, Pres (self l v d))
    (c : Circuit) (location loc : String) (v : Roth) :
    Pres (siblingPass self c location loc v) := by
  unfold siblingPass
  refine runList_pres (fun foName => ?_) _
  intro σ b σ' h x hx
  dsimp only at h
  split at h
  · simp only [Option.some.injEq, Prod.mk.injEq] at h
    rw [← h.2]
  · split at h
    · exact hs _ _ _ _ _ _ h x hx
    · exact hs _ _ _ _ _ _ h x hx

theorem backwardPhase_pres (self : RecFun) (hs : ∀ l v d, Pres (self l v d))
    (c : Circuit) (location : String) (asg : List (String × Roth)) :
    Pres (backwardPhase self c location asg) := by
  unfold backwardPhase
  exact runList_pres
    (fun lv => andThen_pres (hs _ _ _) (siblingPass_pres self hs c location lv.1 lv.2)) asg

theorem forwardLoop_pres (self : RecFun) (hs : ∀ l v d, Pres (self l v d))
    (c : Circuit) (location : String) (isOnly : Bool) (d0 : String) :
    ∀ (fos : List String) (vVar : Roth),
      Pres (forwardLoop self c location isOnly d0 fos vVar) := by
  intro fos
  induction fos with
  | nil =>
    intro vVar σ b σ' h x hx
    simp only [forwardLoop, Option.some.injEq, Prod.mk.injEq] at h
    rw [← h.2]
  | cons fo rest ih =>
    intro vVar σ b σ' h x hx
    simp only [forwardLoop] at h
    split at h
    · exact andThen_pres (hs _ _ _) (ih _) σ b σ' h x hx
    · split at h
      · exact andThen_pres (hs _ _ _) (ih _) σ b σ' h x hx
      · split at h
        · exact andThen_pres (runList_pres (fun lv => hs _ _ _) _) (ih _) σ b σ' h x hx
        · exact ih _ σ b σ' h x hx

theorem implyFinish_pres (c : Circuit) (dd : Bool) (self : RecFun)
    (hs : ∀ l v d, Pres (self l v d)) (location : String) (value : Roth)
    (dir : Direction) (asg : List (String × Roth)) :
    Pres (implyFinish c dd self location value dir asg) := by
  intro σ2 b σ' h x hx
  unfold implyFinish at h
  dsimp only at h
  by_cases hdir : dir ≠ Direction.BACKWARD
  · rw [if_pos hdir] at h
    exact forwardLoop_pres self hs c location _ _ _ _ σ2 b σ' h x hx
  · rw [if_neg hdir] at h
    simp only [Option.some.injEq, Prod.mk.injEq] at h
    rw [← h.2]

theorem implyRest_pres (c : Circuit) (dd : Bool) (self : RecFun)
    (hs : ∀ l v d, Pres (self l v d)) (location : String) (value : Roth)
    (dir : Direction) (nv : Roth) :
    Pres (implyRest c dd self location value dir nv) := by
  intro σ1 b σ' h x hx
  unfold implyRest at h
  cases heq : (if (c.gatemap location).gatetype = GType.INPUT then some []
      else backwardAssigns (c.gatemap location).gatetype nv
        (c.gatemap location).fanin σ1) with
  | none =>
    rw [heq] at h
    have hh : (some (false, σ1) : StepResult) = some (b, σ') := h
    simp only [Option.some.injEq, Prod.mk.injEq] at hh
    rw [← hh.2]
  | some asg =>
    rw [heq] at h
    have h3 : (match backwardPhase self c location asg σ1 with
        | none => (none : StepResult)
        | some (false, σ2) => some (false, σ2)
        | some (true, σ2) => implyFinish c dd self location value dir asg σ2) =
          some (b, σ') := h
    clear h
    cases heq2 : backwardPhase self c location asg σ1 with
    | none =>
      rw [heq2] at h3
      have hh : (none : StepResult) = some (b, σ') := h3
      exact Option.noConfusion hh
    | some p =>
      obtain ⟨bb, σ2⟩ := p
      rw [heq2] at h3
      cases bb with
      | false =>
        have hh : (some (false, σ2) : StepResult) = some (b, σ') := h3
        simp only [Option.some.injEq, Prod.mk.injEq] at hh
        rw [← hh.2]
        exact backwardPhase_pres self hs c location asg σ1 false σ2 heq2 x hx
      | true =>
        have hh : implyFinish c dd self location value dir asg σ2 = some (b, σ') := h3
        have h1 := backwardPhase_pres self hs c location asg σ1 true σ2 heq2 x hx
        have h2 := implyFinish_pres c dd self hs location value dir asg σ2 b σ' hh x
          (by rw [h1]; exact hx)
        rw [h2, h1]

theorem upd_ne (σ : Values) (loc : String) (nv : Roth) (x : String)
    (hx : x ≠ loc) : upd σ loc nv x = σ x := by
  unfold upd
  exact if_neg hx

theorem implyStep_pres (c : Circuit) (faults : List Fault) (dd : Bool)
    (self : RecFun) (hs : ∀ l v d, Pres (self l v d))
    (location : String) (value : Roth) (dir : Direction) :
    Pres (implyStep c faults dd self location value dir) := by
  intro σ b σ' h x hx
  unfold implyStep at h
  split at h
  · simp only [Option.some.injEq, Prod.mk.injEq] at h
    rw [← h.2]
  · next nv heq =>
    split at h
    · next hX =>
      have hxl : x ≠ location := fun hc => hx (by rw [hc]; exact hX)
      have hu : upd σ location nv x = σ x := upd_ne σ location nv x hxl
      have h2 := implyRest_pres c dd self hs location value dir nv
        (upd σ location nv) b σ' h x (by rw [hu]; exact hx)
      rw [h2, hu]
    · split at h
      · exact implyRest_pres c dd self hs location value dir nv σ b σ' h x hx
      · simp only [Option.some.injEq, Prod.mk.injEq] at h
        rw [← h.2]

theorem implyAndCheck_pres (c : Circuit) (faults : List Fault) (dd : Bool) :
    ∀ (fuel : Nat) (loc : String) (v : Roth) (dir : Direction),
      Pres (implyAndCheck c faults dd fuel loc v dir) := by
  intro fuel
  induction fuel with
  | zero => intro loc v dir σ b σ' h; exact Option.noConfusion h
  | succ n ih => intro loc v dir; exact implyStep_pres c faults dd _ ih loc v dir

/-! Claim theorems. -/

/-- C7: across any sequence of `imply_and_check` calls (arbitrary fuel, hence
arbitrarily deep recursion), a gate whose stored value is definite keeps
exactly that value in the resulting state; and an implication whose effective
value differs from a definite stored value returns False with the state
unchanged. -/
theorem imply_and_check_monotone :
    (∀ (c : Circuit) (faults : List Fault) (dd : Bool) (fuel : Nat)
        (loc : String) (v : Roth) (dir : Direction) (σ : Values) (b : Bool)
        (σ' : Values),
        implyAndCheck c faults dd fuel loc v dir σ = some (b, σ') →
        ∀ g, σ g ≠ Roth.X → σ' g = σ g)
  ∧ (∀ (c : Circuit) (faults : List Fault) (dd : Bool) (fuel : Nat)
        (loc : String) (v : Roth) (dir : Direction) (σ : Values) (nv : Roth),
        effectiveValue (faultValue faults loc) v = some nv →
        σ loc ≠ Roth.X → σ loc ≠ nv →
        implyAndCheck c faults dd (fuel + 1) loc v dir σ = some (false, σ)) := by
  constructor
  · intro c faults dd fuel loc v dir σ b σ' h g hg
    exact implyAndCheck_pres c faults dd fuel loc v dir σ b σ' h g hg
  · intro c faults dd fuel loc v dir σ nv heff hX hnv
    show implyStep c faults dd (implyAndCheck c faults dd fuel) loc v dir σ =
      some (false, σ)
    unfold implyStep
    simp only [heff, if_neg hX, if_neg hnv]

/-- Witness for C7 at a concrete run: implying 1 on input A leaves the
already-definite value of B untouched, and implying 0 on the already-one
input B is rejected with the state unchanged. -/
theorem imply_and_check_monotone_witness :
    (upd (upd σX "B" Roth.One) "A" Roth.One) "B" = (upd σX "B" Roth.One) "B"
  ∧ implyAndCheck inputsC [] false 1 "B" Roth.Zero Direction.BOTH
      (upd σX "B" Roth.One) = some (false, upd σX "B" Roth.One) :=
  ⟨imply_and_check_monotone.1 inputsC [] false 1 "A" Roth.One Direction.BOTH
      (upd σX "B" Roth.One) true (upd (upd σX "B" Roth.One) "A" Roth.One) rfl
      "B" (by decide),
   imply_and_check_monotone.2 inputsC [] false 0 "B" Roth.Zero Direction.BOTH
      (upd σX "B" Roth.One) Roth.Zero (by decide) (by decide) (by decide)⟩

/-- C10: implying X on a gate whose stored value is already definite is a
conflict: whatever the active fault list holds (a matching fault or none),
the computed effective value stays X, differs from the definite stored value,
and `imply_and_check` returns False with the state unchanged. -/
theorem imply_x_on_assigned :
    ∀ (c : Circuit) (faults : List Fault) (dd : Bool) (fuel : Nat)
      (loc : String) (dir : Direction) (σ : Values), σ loc ≠ Roth.X →
      implyAndCheck c faults dd (fuel + 1) loc Roth.X dir σ = some (false, σ) := by
  intro c faults dd fuel loc dir σ hloc
  have he : effectiveValue (faultValue faults loc) Roth.X = some Roth.X := by
    cases h : faultValue faults loc <;> decide
  show implyStep c faults dd (implyAndCheck c faults dd fuel) loc Roth.X dir σ =
    some (false, σ)
  unfold implyStep
  simp only [he, if_neg hloc]

/-- Witness for C10: with a matching fault on A and with no fault at all,
implying X on the already-One input A returns False and keeps the state. -/
theorem imply_x_on_assigned_witness :
    implyAndCheck inputsC [⟨Roth.Zero, "A", none⟩] false 3 "A" Roth.X
      Direction.BOTH (upd σX "A" Roth.One) = some (false, upd σX "A" Roth.One)
  ∧ implyAndCheck inputsC [] false 3 "A" Roth.X Direction.BOTH
      (upd σX "A" Roth.One) = some (false, upd σX "A" Roth.One) :=
  ⟨imply_x_on_assigned inputsC [⟨Roth.Zero, "A", none⟩] false 2 "A"
      Direction.BOTH (upd σX "A" Roth.One) (by decide),
   imply_x_on_assigned inputsC [] false 2 "A" Direction.BOTH
      (upd σX "A" Roth.One) (by decide)⟩

/-- C1: fault absorption in `imply_and_check`. When the active-fault scan
finds a fault of polarity 0 on the target line, incoming 1 and D give
effective value D, incoming 0 gives 0, and incoming D̄ is rejected (the call
returns False); symmetrically for polarity 1 (incoming 0 and D̄ give D̄,
incoming 1 gives 1, incoming D is rejected); with no matching fault the
incoming value is used unchanged. -/
theorem fault_absorption :
    (∀ (faults : List Fault) (L : String),
        (∃ f ∈ faults, f.stem = L) →
        (∀ f ∈ faults, f.stem = L → f.value = Roth.Zero) →
        effectiveValue (faultValue faults L) Roth.One = some Roth.D ∧
        effectiveValue (faultValue faults L) Roth.D = some Roth.D ∧
        effectiveValue (faultValue faults L) Roth.Zero = some Roth.Zero ∧
        effectiveValue (faultValue faults L) Roth.Db = none ∧
        ∀ (c : Circuit) (dd : Bool) (dir : Direction) (σ : Values) (fuel : Nat),
          implyAndCheck c faults dd (fuel + 1) L Roth.Db dir σ = some (false, σ))
  ∧ (∀ (faults : List Fault) (L : String),
        (∃ f ∈ faults, f.stem = L) →
        (∀ f ∈ faults, f.stem = L → f.value = Roth.One) →
        effectiveValue (faultValue faults L) Roth.Zero = some Roth.Db ∧
        effectiveValue (faultValue faults L) Roth.Db = some Roth.Db ∧
        effectiveValue (faultValue faults L) Roth.One = some Roth.One ∧
        effectiveValue (faultValue faults L) Roth.D = none ∧
        ∀ (c : Circuit) (dd : Bool) (dir : Direction) (σ : Values) (fuel : Nat),
          implyAndCheck c faults dd (fuel + 1) L Roth.D dir σ = some (false, σ))
  ∧ (∀ (faults : List Fault) (L : String) (v : Roth),
        (∀ f ∈ faults, f.stem ≠ L) →
        effectiveValue (faultValue faults L) v = some v) := by
  refine ⟨?_, ?_, ?_⟩
  · intro faults L hex hall
    have hfv := faultValue_of_match faults L Roth.Zero hex hall
    rw [hfv]
    refine ⟨by decide, by decide, by decide, by decide, ?_⟩
    intro c dd dir σ fuel
    show implyStep c faults dd (implyAndCheck c faults dd fuel) L Roth.Db dir σ =
      some (false, σ)
    unfold implyStep
    rw [hfv]
    rfl
  · intro faults L hex hall
    have hfv := faultValue_of_match faults L Roth.One hex hall
    rw [hfv]
    refine ⟨by decide, by decide, by decide, by decide, ?_⟩
    intro c dd dir σ fuel
    show implyStep c faults dd (implyAndCheck c faults dd fuel) L Roth.D dir σ =
      some (false, σ)
    unfold implyStep
    rw [hfv]
    rfl
  · intro faults L v h
    rw [faultValue_of_nomatch faults L h]
    cases v <;> decide

/-- Witness for C1 at concrete fault lists: polarity 0 on A turns an implied
1 into D, polarity 1 on A turns an implied 0 into D̄, and a fault elsewhere
leaves the implied value unchanged. -/
theorem fault_absorption_witness :
    effectiveValue (faultValue [⟨Roth.Zero, "A", none⟩] "A") Roth.One =
      some Roth.D
  ∧ effectiveValue (faultValue [⟨Roth.One, "A", none⟩] "A") Roth.Zero =
      some Roth.Db
  ∧ effectiveValue (faultValue [⟨Roth.Zero, "B", none⟩] "A") Roth.One =
      some Roth.One :=
  ⟨(fault_absorption.1 [⟨Roth.Zero, "A", none⟩] "A" (by decide) (by decide)).1,
   (fault_absorption.2.1 [⟨Roth.One, "A", none⟩] "A" (by decide) (by decide)).1,
   fault_absorption.2.2 [⟨Roth.Zero, "B", none⟩] "A" Roth.One (by decide)⟩

/-- C2: for every non-INPUT AND/NAND/OR/NOR/NOT/BUFF gate, one fan-in
iteration of `collapse_fault` performs exactly the action prescribed by the
section 4.2 table (`specFaninRule`): an "equivalent" entry adds the fan-in
fault of the listed polarity to the owner and recurses with the same owner,
a "dominated" entry opens a fresh class for it and recurses with that class
as owner. In particular, on `G = NAND(A, B)` the SA0 root has equivalents
{G/0} with dominated children {A/1} and {B/1}, and the SA1 root has
equivalents {G/1, A/0, B/0} and no children. -/
theorem collapse_fault_table :
    (∀ (c : Circuit) (rec : Fault → Option CollapseResult) (gname fi : String)
        (gt : GType) (p : Roth) (rel : FaninRel),
        specFaninRule gt p = some rel →
        faninStep c rec gname gt p fi = applyRel c rec gname fi rel)
  ∧ collapseRoot nandC 3 ⟨Roth.Zero, "G", none⟩ =
      some (.node [⟨Roth.Zero, "G", none⟩]
        [.node [⟨Roth.One, "A", none⟩] [], .node [⟨Roth.One, "B", none⟩] []])
  ∧ collapseRoot nandC 3 ⟨Roth.One, "G", none⟩ =
      some (.node [⟨Roth.One, "G", none⟩, ⟨Roth.Zero, "A", none⟩,
        ⟨Roth.Zero, "B", none⟩] []) := by
  refine ⟨?_, rfl, rfl⟩
  intro c rec gname fi gt p rel hrel
  cases gt <;> cases p <;> simp only [specFaninRule] at hrel <;>
    first
      | exact Option.noConfusion hrel
      | (obtain rfl := Option.some.inj hrel
         simp [faninStep, applyRel, pickFault])

/-- Witness for C2: the NAND/SA1 table entry applied to fan-in A with a
trivial recursion gives the equivalent-with-same-owner action for A stuck-at-0. -/
theorem collapse_fault_table_witness :
    faninStep nandC (fun _ => some ⟨[], [], [], []⟩) "G" GType.NAND Roth.One "A" =
      applyRel nandC (fun _ => some ⟨[], [], [], []⟩) "G" "A"
        (FaninRel.equivalent Roth.Zero) :=
  collapse_fault_table.1 nandC (fun _ => some ⟨[], [], [], []⟩) "G" "A"
    GType.NAND Roth.One (FaninRel.equivalent Roth.Zero) rfl

/-- One fan-in step that neither recurses nor touches the owner, promoting
`T fi` to the top level and returning the name `N fi`, accumulates over the
fan-in list to the concatenated promotions and the name list. -/
theorem collapseList_const_shape {step : String → Option CollapseResult}
    (T : String → List FaultClass) (N : String → String)
    (hstep : ∀ fi, step fi = some ⟨[], [], T fi, [N fi]⟩) :
    ∀ l, collapseList step l =
      some ⟨[], [], l.foldr (fun fi acc => T fi ++ acc) [], l.map N⟩ := by
  intro l
  induction l with
  | nil => rfl
  | cons fi rest ih =>
    simp only [collapseList, hstep fi, ih, List.foldr_cons, List.map_cons]
    simp [CollapseResult.append]

/-- A fan-in step with no effect at all accumulates to no effect. -/
theorem collapseList_const_empty {step : String → Option CollapseResult}
    (hstep : ∀ fi, step fi = some ⟨[], [], [], []⟩) :
    ∀ l, collapseList step l = some ⟨[], [], [], []⟩ := by
  intro l
  induction l with
  | nil => rfl
  | cons fi rest ih =>
    simp only [collapseList, hstep fi, ih]
    simp [CollapseResult.append]

/-- C6 (amended): when `collapse_fault` processes a stem fault on an XOR or
XNOR gate, no fan-in fault is added as equivalent or dominated. For polarity
SA0, each branch fan-in (driver fan-out count ≠ 1) has fresh top-level classes
for its SA0 and SA1 faults appended, and every fan-in gate name is returned to
the work set; for polarity SA1 the source deliberately does nothing — no
top-level classes and no returned names. -/
theorem collapse_xor_promotes :
    ∀ (c : Circuit) (fuel : Nat) (g : String),
      ((c.gatemap g).gatetype = GType.XOR ∨ (c.gatemap g).gatetype = GType.XNOR) →
      (collapseFault c (fuel + 1) ⟨Roth.Zero, g, none⟩ =
        some ⟨[], [],
          (c.gatemap g).fanin.foldr (fun fi acc =>
            (if (c.gatemap fi).fanout.length ≠ 1 then
              [FaultClass.node [(faninFaults c g fi).1] [],
               FaultClass.node [(faninFaults c g fi).2] []]
             else []) ++ acc) [],
          (c.gatemap g).fanin.map (fun fi => (c.gatemap fi).name)⟩)
      ∧ collapseFault c (fuel + 1) ⟨Roth.One, g, none⟩ = some ⟨[], [], [], []⟩ := by
  intro c fuel g hgt
  have hnin : ¬((c.gatemap g).gatetype = GType.INPUT) := by
    rcases hgt with h | h <;> rw [h] <;> simp
  constructor
  · have h1 : collapseFault c (fuel + 1) ⟨Roth.Zero, g, none⟩ =
        (if (c.gatemap g).gatetype = GType.INPUT then some ⟨[], [], [], []⟩
         else collapseList
           (faninStep c (collapseFault c fuel) g (c.gatemap g).gatetype Roth.Zero)
           (c.gatemap g).fanin) := rfl
    rw [h1, if_neg hnin]
    rcases hgt with h | h <;> rw [h] <;>
      exact collapseList_const_shape _ _ (fun fi => rfl) _
  · have h1 : collapseFault c (fuel + 1) ⟨Roth.One, g, none⟩ =
        (if (c.gatemap g).gatetype = GType.INPUT then some ⟨[], [], [], []⟩
         else collapseList
           (faninStep c (collapseFault c fuel) g (c.gatemap g).gatetype Roth.One)
           (c.gatemap g).fanin) := rfl
    rw [h1, if_neg hnin]
    rcases hgt with h | h <;> rw [h] <;>
      exact collapseList_const_empty (fun fi => rfl) _

/-- C6 counterexample: on `G = XOR(A, B)` with branch fan-in A (A also feeds
H), `collapse_fault` on the SA1 output fault promotes nothing to the top level
and returns no fan-in names — against the claim, which requires the two
promoted classes for A and the returned names {A, B} for either polarity. -/
theorem collapse_xor_sa1_cex :
    (collapseFault xorC 3 ⟨Roth.One, "G", none⟩).map CollapseResult.fins =
      some []
  ∧ (collapseFault xorC 3 ⟨Roth.One, "G", none⟩).map
      (fun r => r.tops.length) = some 0 := ⟨rfl, rfl⟩

/-- Witness for C6 on `G = XOR(A, B)` with branch fan-in A: SA0 promotes A's
two branch-fault classes and returns both fan-in names, SA1 does nothing. -/
theorem collapse_xor_promotes_witness :
    collapseFault xorC 3 ⟨Roth.Zero, "G", none⟩ =
      some ⟨[], [],
        [FaultClass.node [⟨Roth.Zero, "A", some "G"⟩] [],
         FaultClass.node [⟨Roth.One, "A", some "G"⟩] []],
        ["A", "B"]⟩
  ∧ collapseFault xorC 3 ⟨Roth.One, "G", none⟩ = some ⟨[], [], [], []⟩ :=
  ⟨(collapse_xor_promotes xorC 2 "G" (Or.inl rfl)).1,
   (collapse_xor_promotes xorC 2 "G" (Or.inl rfl)).2⟩

/-- The checkpoint walk only ever collects classes that the plain
non-dominating walk also collects. -/
theorem noDominantCheck_subset (c : Circuit) :
    ∀ (l : List FaultClass), ∀ t ∈ noDominantCheckListAux c l,
      t ∈ noDominantListAux l
  | [] => by simp [noDominantCheckListAux]
  | .node eqv dom :: ts => by
    intro t ht
    simp only [noDominantCheckListAux, noDominantListAux] at *
    rcases List.mem_append.mp ht with h1 | h2
    · by_cases hdom : dom.isEmpty
      · rw [if_pos hdom]
        split at h1
        · exact List.mem_append.mpr (Or.inl h1)
        · rw [List.isEmpty_iff.mp hdom] at h1
          simp [noDominantCheckListAux] at h1
      · rw [if_neg hdom]
        split at h1
        · next hcond => exact absurd hcond.1 hdom
        · exact List.mem_append.mpr
            (Or.inl (noDominantCheck_subset c dom t h1))
    · exact List.mem_append.mpr (Or.inr (noDominantCheck_subset c ts t h2))

/-- Membership in the `.analysis` report body is exactly membership in the
normal representative list minus the checkpoint representative list. -/
theorem analysisFaults_mem (nd cp : List FaultClass) (f : Fault) :
    f ∈ analysisFaults nd cp ↔
      (∃ n ∈ nd, n.rep = f) ∧ ∀ m ∈ cp, m.rep ≠ f := by
  unfold analysisFaults
  simp only [List.mem_map, List.mem_filter]
  constructor
  · rintro ⟨n, ⟨hn, hp⟩, rfl⟩
    simp only [Bool.not_eq_true', List.any_eq_false,
      decide_eq_false_iff_not, decide_eq_true_eq] at hp
    exact ⟨⟨n, hn, rfl⟩, hp⟩
  · rintro ⟨⟨n, hn, rfl⟩, hall⟩
    refine ⟨n, ⟨hn, ?_⟩, rfl⟩
    simp only [Bool.not_eq_true', List.any_eq_false, decide_eq_false_iff_not,
      decide_eq_true_eq]
    exact hall

/-- C8: the representative faults of the checkpoint non-dominating report form
a subset of those of the plain non-dominating report, and the `.analysis`
report lists exactly the representatives present in the plain report but
absent from the checkpoint report. -/
theorem nondominating_reports :
    (∀ (c : Circuit) (roots : List FaultClass) (f : Fault),
        f ∈ (noDominantCheckListAux c roots).map FaultClass.rep →
        f ∈ (noDominantListAux roots).map FaultClass.rep)
  ∧ (∀ (c : Circuit) (roots : List FaultClass) (f : Fault),
        f ∈ analysisFaults (noDominantListAux roots)
            (noDominantCheckListAux c roots) ↔
          f ∈ (noDominantListAux roots).map FaultClass.rep ∧
          f ∉ (noDominantCheckListAux c roots).map FaultClass.rep) := by
  constructor
  · intro c roots f hf
    rcases List.mem_map.mp hf with ⟨t, ht, rfl⟩
    exact List.mem_map.mpr ⟨t, noDominantCheck_subset c roots t ht, rfl⟩
  · intro c roots f
    rw [analysisFaults_mem]
    simp [List.mem_map]

/-- Witness for C8 on a one-class forest rooted at a branch fault: its
representative appears in the checkpoint report and hence in the plain
report, and the analysis difference is characterized. -/
theorem nondominating_reports_witness :
    (⟨Roth.Zero, "A", some "G"⟩ : Fault) ∈
      (noDominantListAux [.node [⟨Roth.Zero, "A", some "G"⟩] []]).map
        FaultClass.rep
  ∧ ((⟨Roth.Zero, "A", some "G"⟩ : Fault) ∈
      analysisFaults
        (noDominantListAux [.node [⟨Roth.Zero, "A", some "G"⟩] []])
        (noDominantCheckListAux inputsC
          [.node [⟨Roth.Zero, "A", some "G"⟩] []]) ↔
      (⟨Roth.Zero, "A", some "G"⟩ : Fault) ∈
        (noDominantListAux [.node [⟨Roth.Zero, "A", some "G"⟩] []]).map
          FaultClass.rep ∧
      (⟨Roth.Zero, "A", some "G"⟩ : Fault) ∉
        (noDominantCheckListAux inputsC
          [.node [⟨Roth.Zero, "A", some "G"⟩] []]).map FaultClass.rep) :=
  ⟨nondominating_reports.1 inputsC [.node [⟨Roth.Zero, "A", some "G"⟩] []]
      ⟨Roth.Zero, "A", some "G"⟩
      (by simp [noDominantCheckListAux, checkpointCond, FaultClass.rep,
        Fault.is_branch]),
   nondominating_reports.2 inputsC [.node [⟨Roth.Zero, "A", some "G"⟩] []]
      ⟨Roth.Zero, "A", some "G"⟩⟩

/-- The X-path scan reports the first gate (in map order) that is on the
D-frontier and passes the X-path test, and emits the terminator only when no
such gate exists. -/
theorem xPathScan_find (c : Circuit) (σ : Values) (fuel : Nat) :
    ∀ (l : List (String × Gate)),
      xPathScan c σ fuel l =
        (match l.find? (fun p =>
            isDFrontierB σ p && xPathCheckUtils c σ fuel p.2.name) with
         | some p => p.2.name ++ "\n"
         | none => "$\n\n") := by
  intro l
  induction l with
  | nil => rfl
  | cons p rest ih =>
    by_cases h1 : isDFrontierB σ p = true
    · by_cases h2 : xPathCheckUtils c σ fuel p.2.name = true
      · rw [List.find?_cons_of_pos _ (by rw [h1, h2]; rfl)]
        simp [xPathScan, h1, h2]
      · have h2' : xPathCheckUtils c σ fuel p.2.name = false := by
          cases hx : xPathCheckUtils c σ fuel p.2.name with
          | false => rfl
          | true => exact absurd hx h2
        rw [List.find?_cons_of_neg _ (by rw [h2']; simp)]
        rw [← ih]
        simp [xPathScan, h1, h2']
    · have h1' : isDFrontierB σ p = false := by
        cases hx : isDFrontierB σ p with
        | false => rfl
        | true => exact absurd hx h1
      rw [List.find?_cons_of_neg _ (by rw [h1']; simp)]
      rw [← ih]
      simp [xPathScan, h1']

/-- C9 (amended): the section written by the Xpath command always opens with
the header line `X-PATH`; when no D-frontier gate has an X-path it is closed
by a `$` line and a blank line, and when one exists the first such gate (in
gate-map order) is written and the section ends right after its name, with no
`$` terminator. -/
theorem xpath_report_format :
    ∀ (c : Circuit) (σ : Values) (fuel : Nat),
      xPathOut c σ fuel = "X-PATH\n" ++
        (match c.gates.find? (fun p =>
            isDFrontierB σ p && xPathCheckUtils c σ fuel p.2.name) with
         | some p => p.2.name ++ "\n"
         | none => "$\n\n") := by
  intro c σ fuel
  unfold xPathOut
  rw [xPathScan_find]

/-- C9 counterexample: with D on input A of `F = AND(A, B, C)`, gate F is on
the D-frontier and has an X-path (it is an output), so the Xpath command
writes the header and `F` and returns early — the section is not terminated
by a `$` line and blank line. -/
theorem xpath_terminator_cex :
    xPathOut andC (upd σX "A" Roth.D) 3 = "X-PATH\nF\n" ∧
    "X-PATH\nF\n".data.reverse.take 3 ≠ "$\n\n".data.reverse :=
  ⟨rfl, by decide⟩

/-- C4 (amended): during forward propagation, each fan-out with a definite
evaluation is re-implied with that value and direction BOTH; a fan-out whose
evaluation is X while it already holds a definite value is re-implied with
the just-assigned gate's own stored value (`gate_inst.value`, not the
fan-out's value) and direction BACKWARD. The evaluation uses the engine's
local `value` variable for NOT/BUFF fan-outs (`vVar`), not the stored fan-in
value. The second part shows the dispatch arising inside `imply_and_check`
for an INPUT location with unique D-drive disabled. -/
theorem forward_propagation :
    (∀ (self : RecFun) (c : Circuit) (location : String) (isOnly : Bool)
        (d0 fo : String) (rest : List String) (vVar : Roth) (σ : Values),
       (gateEvalSwitch (c.gatemap fo).gatetype ((c.gatemap fo).fanin.map σ) vVar
            ≠ Roth.X →
          forwardLoop self c location isOnly d0 (fo :: rest) vVar σ =
            andThen
              (self fo (gateEvalSwitch (c.gatemap fo).gatetype
                ((c.gatemap fo).fanin.map σ) vVar) Direction.BOTH)
              (forwardLoop self c location isOnly d0 rest vVar) σ)
       ∧ (gateEvalSwitch (c.gatemap fo).gatetype ((c.gatemap fo).fanin.map σ) vVar
            = Roth.X →
          σ fo ≠ Roth.X →
          forwardLoop self c location isOnly d0 (fo :: rest) vVar σ =
            andThen (self fo (σ location) Direction.BACKWARD)
              (forwardLoop self c location isOnly d0 rest vVar) σ))
  ∧ (∀ (c : Circuit) (faults : List Fault) (fuel : Nat) (loc : String)
        (v : Roth) (σ : Values) (nv : Roth) (dir : Direction),
       effectiveValue (faultValue faults loc) v = some nv →
       σ loc = Roth.X → (c.gatemap loc).gatetype = GType.INPUT →
       dir ≠ Direction.BACKWARD →
       implyAndCheck c faults false (fuel + 1) loc v dir σ =
         forwardLoop (implyAndCheck c faults false fuel) c loc false ""
           (c.gatemap loc).fanout v (upd σ loc nv)) := by
  constructor
  · intro self c location isOnly d0 fo rest vVar σ
    constructor
    · intro hout
      simp only [forwardLoop]
      rw [if_pos hout]
    · intro hout hfo
      simp only [forwardLoop]
      rw [hout]
      rw [if_neg (by simp), if_pos hfo]
  · intro c faults fuel loc v σ nv dir heff hX hins hdir
    show implyStep c faults false (implyAndCheck c faults false fuel) loc v dir σ =
      _
    unfold implyStep
    rw [heff]
    dsimp only
    rw [if_pos hX]
    have h2 : implyRest c false (implyAndCheck c faults false fuel) loc v dir nv
        (upd σ loc nv) =
        (if dir ≠ Direction.BACKWARD then
          forwardLoop (implyAndCheck c faults false fuel) c loc false ""
            (c.gatemap loc).fanout v (upd σ loc nv)
        else some (true, upd σ loc nv)) := by
      unfold implyRest
      rw [hins]
      rfl
    rw [h2, if_pos hdir]

/-- C4 counterexample: on `H = AND(G, K)` with H already 0 and K unknown,
implying 1 on G makes H's evaluation X, and the source re-implies G's value 1
on H, a conflict (the whole call returns False with K untouched); the claim's
reading — re-implying H's own definite value 0 — would instead succeed and
justify K to 0, as the claim-variant engine shows. The code and the claim
disagree at this input. -/
theorem forward_propagation_cex :
    (implyAndCheck c4C [] false 4 "G" Roth.One Direction.BOTH
        (upd σX "H" Roth.Zero)).map (fun p => (p.1, p.2 "G", p.2 "H", p.2 "K")) =
      some (false, Roth.One, Roth.Zero, Roth.X)
  ∧ (implyAndCheckClaim c4C [] false 4 "G" Roth.One Direction.BOTH
        (upd σX "H" Roth.Zero)).map (fun p => (p.1, p.2 "G", p.2 "H", p.2 "K")) =
      some (true, Roth.One, Roth.Zero, Roth.Zero) := ⟨rfl, rfl⟩

/-- Witness for C4: on the same circuit, one step of `imply_and_check` on the
INPUT gate G with unique D-drive off reduces to the forward loop over G's
fan-outs at the updated state. -/
theorem forward_propagation_witness :
    implyAndCheck c4C [] false 2 "G" Roth.One Direction.BOTH σX =
      forwardLoop (implyAndCheck c4C [] false 1) c4C "G" false ""
        (c4C.gatemap "G").fanout Roth.One (upd σX "G" Roth.One) :=
  forward_propagation.2 c4C [] 1 "G" Roth.One σX Roth.One Direction.BOTH rfl
    rfl rfl (by decide)

/-- C3: the unique-D-drive scan of imply.py appends a gate to `D_frontiers`
once per fan-in from the first D onward, so with fault A stuck-at-0 on
`F = AND(A, B, C)` (A listed first) the list is [F, F, F]; its length is not
1, the forcing is skipped, and `Imply(A, 1)` with unique D-drive on leaves B
and C at X even though F is the only D-frontier gate and A is on its fan-in —
where the claim requires B and C to be forced to 1. -/
theorem unique_d_drive_not_forced :
    (implyAndCheck andC [⟨Roth.Zero, "A", none⟩] true 2 "A" Roth.One
        Direction.BOTH σX).map
      (fun p => (p.1, p.2 "A", p.2 "B", p.2 "C", p.2 "F")) =
      some (true, Roth.D, Roth.X, Roth.X, Roth.X)
  ∧ dFrontiers andC (upd σX "A" Roth.D) = ["F", "F", "F"] := ⟨rfl, rfl⟩

/-- C5: the XNOR backward-justification chain of imply.py has a mis-indented
`elif` (line 243) on the outer chain, so with `G = XNOR(A, B)`, A = 1, B = X,
implying 0 on G forces B to 1 (the odd-ones branch fires regardless of the
stored output value) and the call succeeds, leaving XNOR(1, 1) = 1 against
the stored 0 — where the parity rule of the claim forces B to 0. -/
theorem xnor_backward_fallthrough :
    backwardAssigns GType.XNOR Roth.Zero ["A", "B"]
        (upd (upd σX "A" Roth.One) "G" Roth.Zero) = some [("B", Roth.One)]
  ∧ (implyAndCheck xnorC [] false 3 "G" Roth.Zero Direction.BOTH
        (upd σX "A" Roth.One)).map (fun p => (p.1, p.2 "A", p.2 "B", p.2 "G")) =
      some (true, Roth.One, Roth.One, Roth.Zero) := ⟨rfl, rfl⟩

end DFT
